import Mathlib

set_option maxRecDepth 100000

/-!
Verification of the credential-resolution core of `src/auth/client.ts`
(google-calendar-mcp).

The source file holds two revisions of the same module:
- revision A, where `loadCredentialsWithFallback` reads the three
  `GOOGLE_*` environment variables directly;
- revision B, where `loadCredentialsWithFallback` fetches the same three
  values from the Doppler secrets service via its SDK.

Both revisions share `loadCredentialsFromFile` and `loadCredentials`
verbatim.  Effects (filesystem read, environment, SDK call) are passed in
as explicit parameters; thrown `Error(msg)` values are modelled as
`Except.error msg`.  JavaScript truthiness of an optional string field
(`undefined` and `""` are falsy) is modelled by `truthyStr`.
-/

/-- The `OAuthCredentials` record produced by every source reader. -/
structure OAuthCredentials where
  client_id : String
  client_secret : String
  redirect_uris : List String
deriving DecidableEq, Repr

/-- The minimal id/secret pair returned by `loadCredentials`. -/
structure MinimalCredential where
  client_id : String
  client_secret : String
deriving DecidableEq, Repr

/-- The nested `installed` object of a standard OAuth-console key file. -/
structure InstalledKeys where
  client_id : String
  client_secret : String
  redirect_uris : List String
deriving DecidableEq, Repr

/-- A parsed key-file JSON document, restricted to the fields the code
reads.  `none` stands for an absent (or JSON-falsy) field. -/
structure KeyFile where
  installed : Option InstalledKeys
  client_id : Option String
  client_secret : Option String
  redirect_uris : Option (List String)
deriving DecidableEq, Repr

/-- JavaScript truthiness of an optional string: `undefined` and the
empty string are falsy, every other string is truthy. -/
def truthyStr : Option String → Bool
  | none => false
  | some s => s ≠ ""

/-- The process environment, restricted to the variables the code reads. -/
structure Env where
  GOOGLE_CLIENT_ID : Option String
  GOOGLE_CLIENT_SECRET : Option String
  GOOGLE_REDIRECT_URI : Option String
  DOPPLER_TOKEN : Option String
deriving DecidableEq, Repr

/-- One secret in a Doppler `secrets.list` response; the code reads its
`computed` field. -/
structure DopplerSecret where
  computed : Option String
deriving DecidableEq, Repr

/-- The `secrets` mapping of a Doppler `secrets.list` response,
restricted to the three names the code looks up. -/
structure DopplerSecrets where
  GOOGLE_CLIENT_ID : Option DopplerSecret
  GOOGLE_CLIENT_SECRET : Option DopplerSecret
  GOOGLE_REDIRECT_URI : Option DopplerSecret
deriving DecidableEq, Repr

/-- The empty mapping used for `secretsResponse.secrets || {}`. -/
def emptyDopplerSecrets : DopplerSecrets := ⟨none, none, none⟩

/-- `msg` contains `needle` as a contiguous substring. -/
def msgContains (msg needle : String) : Prop :=
  needle.data <:+: msg.data

instance (msg needle : String) : Decidable (msgContains msg needle) :=
  List.decidableInfix needle.data msg.data

/-- The default redirect URIs of the flat key-file shape. -/
def defaultRedirectUris : List String := ["http://localhost:3000/oauth2callback"]

/-- Message thrown when the key file matches neither accepted shape. -/
def invalidFormatMsg : String :=
  "Invalid credentials file format. Expected either \"installed\" object or direct client_id/client_secret fields."

/-- `loadCredentialsFromFile` (identical in both revisions).  `fileRead`
models `fs.readFile` followed by `JSON.parse`: `Except.error e` is an
I/O or parse failure with reason `e`, `Except.ok keys` the parsed
document. -/
def loadCredentialsFromFile (fileRead : Except String KeyFile) :
    Except String OAuthCredentials :=
  match fileRead with
  | .error e => .error e
  | .ok keys =>
    match keys.installed with
    | some inst =>
      .ok { client_id := inst.client_id
            client_secret := inst.client_secret
            redirect_uris := inst.redirect_uris }
    | none =>
      if truthyStr keys.client_id && truthyStr keys.client_secret then
        .ok { client_id := keys.client_id.getD ""
              client_secret := keys.client_secret.getD ""
              redirect_uris := keys.redirect_uris.getD defaultRedirectUris }
      else
        .error invalidFormatMsg

/-- Message thrown by revision A when the environment variables are not
all set. -/
def envNotFoundMsg : String :=
  "Doppler OAuth credentials not found. Please ensure GOOGLE_CLIENT_ID, GOOGLE_CLIENT_SECRET, and GOOGLE_REDIRECT_URI environment variables are set."

/-- `loadCredentialsWithFallback`, revision A: reads the three
`GOOGLE_*` environment variables; succeeds only when all three are
truthy (set and non-empty), otherwise throws `envNotFoundMsg`.  The
`NODE_ENV`-gated stderr notice does not affect the returned value and is
not modelled. -/
def loadCredentialsWithFallbackEnv (env : Env) : Except String OAuthCredentials :=
  if truthyStr env.GOOGLE_CLIENT_ID && truthyStr env.GOOGLE_CLIENT_SECRET
      && truthyStr env.GOOGLE_REDIRECT_URI then
    .ok { client_id := env.GOOGLE_CLIENT_ID.getD ""
          client_secret := env.GOOGLE_CLIENT_SECRET.getD ""
          redirect_uris := [env.GOOGLE_REDIRECT_URI.getD ""] }
  else
    .error envNotFoundMsg

/-- Message thrown by revision B when `DOPPLER_TOKEN` is falsy. -/
def dopplerTokenMissingMsg : String := "DOPPLER_TOKEN environment variable not set"

/-- Message thrown by revision B when the fetched secrets lack one of
the three values. -/
def dopplerNotFoundMsg : String :=
  "Doppler OAuth credentials not found. Please ensure GOOGLE_CLIENT_ID, GOOGLE_CLIENT_SECRET, and GOOGLE_REDIRECT_URI are set in Doppler."

/-- The catch-all wrapper of revision B. -/
def dopplerWrapMsg (e : String) : String :=
  "Failed to load OAuth credentials from Doppler: " ++ e

/-- Body of revision B's try block.  `listResult` models the
`doppler.secrets.list('home_automation', 'prd')` call: `Except.error e`
a transport/SDK exception with message `e`, `Except.ok resp` a response
whose `secrets` field is `resp` (`none` when absent, replaced by the
empty mapping). -/
def dopplerTryBody (env : Env) (listResult : Except String (Option DopplerSecrets)) :
    Except String OAuthCredentials :=
  if truthyStr env.DOPPLER_TOKEN then
    match listResult with
    | .error e => .error e
    | .ok resp =>
      let secrets := resp.getD emptyDopplerSecrets
      let clientId := secrets.GOOGLE_CLIENT_ID.bind (fun s => s.computed)
      let clientSecret := secrets.GOOGLE_CLIENT_SECRET.bind (fun s => s.computed)
      let redirectUri := secrets.GOOGLE_REDIRECT_URI.bind (fun s => s.computed)
      if truthyStr clientId && truthyStr clientSecret && truthyStr redirectUri then
        .ok { client_id := clientId.getD ""
              client_secret := clientSecret.getD ""
              redirect_uris := [redirectUri.getD ""] }
      else
        .error dopplerNotFoundMsg
  else
    .error dopplerTokenMissingMsg

/-- `loadCredentialsWithFallback`, revision B: the try body with every
thrown error caught and re-wrapped by `dopplerWrapMsg`. -/
def loadCredentialsWithFallbackDoppler (env : Env)
    (listResult : Except String (Option DopplerSecrets)) :
    Except String OAuthCredentials :=
  match dopplerTryBody env listResult with
  | .ok c => .ok c
  | .error e => .error (dopplerWrapMsg e)

/-- Message thrown by `loadCredentials` when the resolved record lacks
an id or secret. -/
def incompleteMsg : String := "Client ID or Client Secret missing in credentials."

/-- The catch-all wrapper of `loadCredentials`. -/
def loadCredentialsWrapMsg (e : String) : String :=
  "Error loading credentials: " ++ e

/-- `loadCredentials` (identical in both revisions): takes the outcome
of `loadCredentialsWithFallback`, checks the record's `client_id` and
`client_secret` for truthiness, and projects to the minimal pair; every
thrown error is re-wrapped by the catch block. -/
def loadCredentials (resolution : Except String OAuthCredentials) :
    Except String MinimalCredential :=
  match resolution with
  | .error e => .error (loadCredentialsWrapMsg e)
  | .ok c =>
    if c.client_id = "" || c.client_secret = "" then
      .error (loadCredentialsWrapMsg incompleteMsg)
    else
      .ok { client_id := c.client_id, client_secret := c.client_secret }

/-- Modelled from the spec, for comparison with the code: the
three-source priority chain the spec describes in section 4.4 — try the
file source, then the environment source, then the remote secrets
source, returning the first success. -/
def specChainResolve (fileRead : Except String KeyFile) (env : Env)
    (listResult : Except String (Option DopplerSecrets)) :
    Except String OAuthCredentials :=
  match loadCredentialsFromFile fileRead with
  | .ok c => .ok c
  | .error _ =>
    match loadCredentialsWithFallbackEnv env with
    | .ok c => .ok c
    | .error _ => loadCredentialsWithFallbackDoppler env listResult

/-- The data-model invariant the spec states for a successfully produced
CredentialRecord: non-empty `client_id`, non-empty `client_secret`, at
least one redirect URI. -/
def credentialInvariant (c : OAuthCredentials) : Prop :=
  c.client_id ≠ "" ∧ c.client_secret ≠ "" ∧ c.redirect_uris ≠ []

/-! ## Helper lemmas -/

theorem truthyStr_getD_ne (o : Option String) (h : truthyStr o = true) :
    o.getD "" ≠ "" := by
  cases o with
  | none => simp [truthyStr] at h
  | some s =>
    simp only [truthyStr, decide_eq_true_eq] at h
    simpa using h

theorem msgContains_append_right (p e : String) : msgContains (p ++ e) e := by
  refine ⟨p.data, [], ?_⟩
  simp [msgContains, String.data_append]

theorem append_ne_self (p e : String) (hp : p.length ≠ 0) : p ++ e ≠ e := by
  intro h
  have hl : (p ++ e).length = e.length := by rw [h]
  rw [String.length_append] at hl
  omega

/-! ## Claims about the File Source Reader -/

/-- C6: for every parsed key-file document with an `installed` field,
`loadCredentialsFromFile` returns the `installed` object's `client_id`,
`client_secret` and `redirect_uris` verbatim, with no defaulting or
modification. -/
theorem C6_installed_verbatim (keys : KeyFile) (inst : InstalledKeys)
    (h : keys.installed = some inst) :
    loadCredentialsFromFile (.ok keys) =
      .ok ⟨inst.client_id, inst.client_secret, inst.redirect_uris⟩ := by
  simp [loadCredentialsFromFile, h]

theorem C6_installed_verbatim_witness :
    loadCredentialsFromFile (.ok ⟨some ⟨"id", "sec", ["u1", "u2"]⟩, none, none, none⟩) =
      .ok ⟨"id", "sec", ["u1", "u2"]⟩ :=
  C6_installed_verbatim ⟨some ⟨"id", "sec", ["u1", "u2"]⟩, none, none, none⟩
    ⟨"id", "sec", ["u1", "u2"]⟩ rfl

/-- C7: for every flat-shaped document (no `installed`, truthy top-level
`client_id` and `client_secret`), an absent `redirect_uris` defaults to
the single localhost callback URI, and a present `redirect_uris` is
passed through unchanged. -/
theorem C7_flat_redirect_handling (keys : KeyFile)
    (hinst : keys.installed = none)
    (hid : truthyStr keys.client_id = true)
    (hsec : truthyStr keys.client_secret = true) :
    (keys.redirect_uris = none →
      loadCredentialsFromFile (.ok keys) =
        .ok ⟨keys.client_id.getD "", keys.client_secret.getD "",
             ["http://localhost:3000/oauth2callback"]⟩) ∧
    (∀ xs, keys.redirect_uris = some xs →
      loadCredentialsFromFile (.ok keys) =
        .ok ⟨keys.client_id.getD "", keys.client_secret.getD "", xs⟩) := by
  constructor
  · intro h
    simp [loadCredentialsFromFile, hinst, hid, hsec, h, defaultRedirectUris]
  · intro xs h
    simp [loadCredentialsFromFile, hinst, hid, hsec, h]

theorem C7_flat_redirect_handling_witness :
    loadCredentialsFromFile (.ok ⟨none, some "id", some "sec", none⟩) =
      .ok ⟨"id", "sec", ["http://localhost:3000/oauth2callback"]⟩ ∧
    loadCredentialsFromFile (.ok ⟨none, some "id", some "sec", some ["u"]⟩) =
      .ok ⟨"id", "sec", ["u"]⟩ :=
  ⟨(C7_flat_redirect_handling ⟨none, some "id", some "sec", none⟩
      rfl (by decide) (by decide)).1 rfl,
   (C7_flat_redirect_handling ⟨none, some "id", some "sec", some ["u"]⟩
      rfl (by decide) (by decide)).2 ["u"] rfl⟩

/-- C8: for every parsed document matching neither accepted shape (no
`installed` field and not both top-level fields truthy),
`loadCredentialsFromFile` fails with the invalid-format message, which
names both accepted shapes. -/
theorem C8_invalid_format (keys : KeyFile)
    (hinst : keys.installed = none)
    (h : (truthyStr keys.client_id && truthyStr keys.client_secret) = false) :
    loadCredentialsFromFile (.ok keys) = .error invalidFormatMsg ∧
    msgContains invalidFormatMsg "\"installed\" object" ∧
    msgContains invalidFormatMsg "client_id/client_secret" := by
  refine ⟨?_, by decide, by decide⟩
  simp [loadCredentialsFromFile, hinst, h]

theorem C8_invalid_format_witness :
    loadCredentialsFromFile (.ok ⟨none, none, some "sec", none⟩) =
      .error invalidFormatMsg ∧
    msgContains invalidFormatMsg "\"installed\" object" ∧
    msgContains invalidFormatMsg "client_id/client_secret" :=
  C8_invalid_format ⟨none, none, some "sec", none⟩ rfl (by decide)

/-- C10: a flat-shaped document whose top-level `client_id` or
`client_secret` is present but equal to the empty string is classified
as an unrecognized shape: the reader fails with the invalid-format
message (naming both accepted shapes), which is a different failure from
the missing/incomplete-credential messages, because the shape test uses
truthiness rather than presence. -/
theorem C10_empty_field_invalid_format (keys : KeyFile)
    (hinst : keys.installed = none)
    (h : keys.client_id = some "" ∨ keys.client_secret = some "") :
    loadCredentialsFromFile (.ok keys) = .error invalidFormatMsg ∧
    msgContains invalidFormatMsg "\"installed\" object" ∧
    msgContains invalidFormatMsg "client_id/client_secret" ∧
    invalidFormatMsg ≠ incompleteMsg ∧
    invalidFormatMsg ≠ envNotFoundMsg := by
  refine ⟨?_, by decide, by decide, by decide, by decide⟩
  rcases h with h | h <;>
    simp [loadCredentialsFromFile, hinst, h, truthyStr]

theorem C10_empty_field_invalid_format_witness :
    loadCredentialsFromFile (.ok ⟨none, some "", some "sec", none⟩) =
      .error invalidFormatMsg :=
  (C10_empty_field_invalid_format ⟨none, some "", some "sec", none⟩ rfl
    (Or.inl rfl)).1

/-! ## Claims about the Environment Source Reader (revision A) -/

/-- C4: the environment reader succeeds if and only if all three
variables are present and non-empty; on success the record's fields are
the variables' values with `redirect_uris` the single-element list of
the redirect-URI value; on failure the message names every missing
variable (the fixed message names all three). -/
theorem C4_env_reader (env : Env) :
    (∀ cid csec ruri : String,
      env.GOOGLE_CLIENT_ID = some cid → cid ≠ "" →
      env.GOOGLE_CLIENT_SECRET = some csec → csec ≠ "" →
      env.GOOGLE_REDIRECT_URI = some ruri → ruri ≠ "" →
      loadCredentialsWithFallbackEnv env = .ok ⟨cid, csec, [ruri]⟩) ∧
    (¬(truthyStr env.GOOGLE_CLIENT_ID = true ∧ truthyStr env.GOOGLE_CLIENT_SECRET = true ∧
        truthyStr env.GOOGLE_REDIRECT_URI = true) →
      loadCredentialsWithFallbackEnv env = .error envNotFoundMsg ∧
      msgContains envNotFoundMsg "GOOGLE_CLIENT_ID" ∧
      msgContains envNotFoundMsg "GOOGLE_CLIENT_SECRET" ∧
      msgContains envNotFoundMsg "GOOGLE_REDIRECT_URI") := by
  constructor
  · intro cid csec ruri h1 hc1 h2 hc2 h3 hc3
    simp [loadCredentialsWithFallbackEnv, h1, h2, h3, truthyStr, hc1, hc2, hc3]
  · intro h
    refine ⟨?_, by decide, by decide, by decide⟩
    have hb : (truthyStr env.GOOGLE_CLIENT_ID && truthyStr env.GOOGLE_CLIENT_SECRET
        && truthyStr env.GOOGLE_REDIRECT_URI) = false := by
      rcases Bool.eq_false_or_eq_true (truthyStr env.GOOGLE_CLIENT_ID) with h1 | h1 <;>
        rcases Bool.eq_false_or_eq_true (truthyStr env.GOOGLE_CLIENT_SECRET) with h2 | h2 <;>
        rcases Bool.eq_false_or_eq_true (truthyStr env.GOOGLE_REDIRECT_URI) with h3 | h3 <;>
        simp [h1, h2, h3] at h ⊢
    simp [loadCredentialsWithFallbackEnv, hb]

theorem C4_env_reader_witness :
    loadCredentialsWithFallbackEnv ⟨some "id1", some "secret1", some "http://x/cb", none⟩ =
      .ok ⟨"id1", "secret1", ["http://x/cb"]⟩ ∧
    loadCredentialsWithFallbackEnv ⟨none, some "secret1", some "http://x/cb", none⟩ =
      .error envNotFoundMsg :=
  ⟨(C4_env_reader ⟨some "id1", some "secret1", some "http://x/cb", none⟩).1
      "id1" "secret1" "http://x/cb" rfl (by decide) rfl (by decide) rfl (by decide),
   ((C4_env_reader ⟨none, some "secret1", some "http://x/cb", none⟩).2 (by decide)).1⟩

/-! ## Claims about the Remote Secrets Source Reader (revision B) -/

/-- C5: every failure of the Doppler reader is normalized at its
boundary: with the access token absent it fails with the wrapped
missing-token message and the result does not depend on the service
call; a transport/SDK exception `e` is caught and re-wrapped into a
message containing `e`, and the wrapped message is never the raw
exception message itself. -/
theorem C5_doppler_normalized (env : Env)
    (l1 l2 : Except String (Option DopplerSecrets)) (e : String) :
    (env.DOPPLER_TOKEN = none →
      loadCredentialsWithFallbackDoppler env l1 = loadCredentialsWithFallbackDoppler env l2 ∧
      loadCredentialsWithFallbackDoppler env l1 =
        .error (dopplerWrapMsg dopplerTokenMissingMsg)) ∧
    (truthyStr env.DOPPLER_TOKEN = true →
      loadCredentialsWithFallbackDoppler env (.error e) = .error (dopplerWrapMsg e) ∧
      msgContains (dopplerWrapMsg e) e ∧
      dopplerWrapMsg e ≠ e) := by
  constructor
  · intro h
    constructor <;>
      simp [loadCredentialsWithFallbackDoppler, dopplerTryBody, h, truthyStr]
  · intro h
    refine ⟨?_, msgContains_append_right _ e, append_ne_self _ e (by decide)⟩
    simp [loadCredentialsWithFallbackDoppler, dopplerTryBody, h]

theorem C5_doppler_normalized_witness :
    loadCredentialsWithFallbackDoppler ⟨none, none, none, none⟩ (.ok none) =
      .error (dopplerWrapMsg dopplerTokenMissingMsg) ∧
    loadCredentialsWithFallbackDoppler ⟨none, none, none, some "tok"⟩
        (.error "connect ETIMEDOUT") =
      .error (dopplerWrapMsg "connect ETIMEDOUT") ∧
    msgContains (dopplerWrapMsg "connect ETIMEDOUT") "connect ETIMEDOUT" :=
  ⟨((C5_doppler_normalized ⟨none, none, none, none⟩ (.ok none) (.error "x")
      "x").1 rfl).2,
   ((C5_doppler_normalized ⟨none, none, none, some "tok"⟩ (.ok none) (.ok none)
      "connect ETIMEDOUT").2 (by decide)).1,
   ((C5_doppler_normalized ⟨none, none, none, some "tok"⟩ (.ok none) (.ok none)
      "connect ETIMEDOUT").2 (by decide)).2.1⟩

/-! ## More helper lemmas -/

theorem ifTruthyTriple_ok_invariant (a b c : Option String) (msg : String)
    (r : OAuthCredentials)
    (h : (if truthyStr a && truthyStr b && truthyStr c then
            Except.ok (⟨a.getD "", b.getD "", [c.getD ""]⟩ : OAuthCredentials)
          else Except.error msg) = Except.ok r) :
    credentialInvariant r := by
  by_cases hc : (truthyStr a && truthyStr b && truthyStr c) = true
  · rw [if_pos hc] at h
    injection h with h
    simp only [Bool.and_eq_true] at hc
    refine h ▸ ⟨truthyStr_getD_ne a ?_, truthyStr_getD_ne b ?_, by simp⟩ <;> tauto
  · rw [if_neg hc] at h
    exact Except.noConfusion h

theorem dopplerWrap_ok (env : Env) (l : Except String (Option DopplerSecrets))
    (r : OAuthCredentials)
    (h : loadCredentialsWithFallbackDoppler env l = .ok r) :
    dopplerTryBody env l = .ok r := by
  unfold loadCredentialsWithFallbackDoppler at h
  cases hb : dopplerTryBody env l with
  | ok c => rw [hb] at h; injection h with h2; rw [h2]
  | error e => rw [hb] at h; exact Except.noConfusion h

theorem dopplerTryBody_ok_invariant (env : Env)
    (l : Except String (Option DopplerSecrets)) (r : OAuthCredentials)
    (h : dopplerTryBody env l = .ok r) : credentialInvariant r := by
  unfold dopplerTryBody at h
  by_cases ht : truthyStr env.DOPPLER_TOKEN = true
  · rw [if_pos ht] at h
    cases l with
    | error e => exact Except.noConfusion h
    | ok resp => exact ifTruthyTriple_ok_invariant _ _ _ _ r h
  · rw [if_neg ht] at h
    exact Except.noConfusion h

/-! ## Claim about the data-model invariant -/

/-- C3 counterexample: the `installed` branch of the File Source Reader
performs no checking, so it successfully produces a record violating
every part of the invariant (empty `client_id`, empty `client_secret`,
empty `redirect_uris`). -/
theorem C3_counterexample :
    loadCredentialsFromFile (.ok ⟨some ⟨"", "", []⟩, none, none, none⟩) =
      .ok ⟨"", "", []⟩ ∧
    ¬ credentialInvariant ⟨"", "", []⟩ :=
  ⟨rfl, by simp [credentialInvariant]⟩

/-- C3 (amended): records produced by the environment reader and the
Doppler reader satisfy the full invariant, and the flat branch of the
File Source Reader guarantees non-empty `client_id` and
`client_secret`; the `installed` branch passes fields through
unchecked. -/
theorem C3_invariant_amended (env : Env) (l : Except String (Option DopplerSecrets))
    (keys : KeyFile) (r : OAuthCredentials) :
    (loadCredentialsWithFallbackEnv env = .ok r → credentialInvariant r) ∧
    (loadCredentialsWithFallbackDoppler env l = .ok r → credentialInvariant r) ∧
    (keys.installed = none → loadCredentialsFromFile (.ok keys) = .ok r →
      r.client_id ≠ "" ∧ r.client_secret ≠ "") := by
  refine ⟨?_, ?_, ?_⟩
  · intro h
    unfold loadCredentialsWithFallbackEnv at h
    by_cases hc : (truthyStr env.GOOGLE_CLIENT_ID && truthyStr env.GOOGLE_CLIENT_SECRET
        && truthyStr env.GOOGLE_REDIRECT_URI) = true
    · rw [if_pos hc] at h
      injection h with h
      simp only [Bool.and_eq_true] at hc
      refine h ▸ ⟨truthyStr_getD_ne _ ?_, truthyStr_getD_ne _ ?_, by simp⟩ <;> tauto
    · rw [if_neg hc] at h
      exact Except.noConfusion h
  · intro h
    exact dopplerTryBody_ok_invariant env l r (dopplerWrap_ok env l r h)
  · intro hinst h
    simp only [loadCredentialsFromFile, hinst] at h
    by_cases hc : (truthyStr keys.client_id && truthyStr keys.client_secret) = true
    · rw [if_pos hc] at h
      injection h with h
      simp only [Bool.and_eq_true] at hc
      exact h ▸ ⟨truthyStr_getD_ne _ hc.1, truthyStr_getD_ne _ hc.2⟩
    · rw [if_neg hc] at h
      exact Except.noConfusion h

theorem C3_invariant_amended_witness :
    credentialInvariant ⟨"id1", "secret1", ["http://x/cb"]⟩ :=
  (C3_invariant_amended ⟨some "id1", some "secret1", some "http://x/cb", none⟩
    (.ok none) ⟨none, none, none, none⟩ ⟨"id1", "secret1", ["http://x/cb"]⟩).1
    rfl

/-! ## Claim about the Validator / Adapter -/

/-- C9 counterexample: the incompleteness message of `loadCredentials`
is one fixed string whatever field is missing — a record missing only
`client_id` and a record missing only `client_secret` yield the same
failure, and that failure still names the field that is present — so
the message does not name which of the two fields is missing. -/
theorem C9_counterexample :
    loadCredentials (.ok ⟨"", "sec", ["u"]⟩) =
      .error (loadCredentialsWrapMsg incompleteMsg) ∧
    loadCredentials (.ok ⟨"id", "", ["u"]⟩) =
      .error (loadCredentialsWrapMsg incompleteMsg) ∧
    msgContains (loadCredentialsWrapMsg incompleteMsg) "Client ID" ∧
    msgContains (loadCredentialsWrapMsg incompleteMsg) "Client Secret" :=
  ⟨rfl, rfl, by decide, by decide⟩

/-- C9 (amended): for every resolved record with an empty `client_id`
or `client_secret`, `loadCredentials` fails with the wrapped
incomplete-credentials message, a fixed string that names both fields
without identifying which one is missing. -/
theorem C9_incomplete_fixed_message (c : OAuthCredentials)
    (h : c.client_id = "" ∨ c.client_secret = "") :
    loadCredentials (.ok c) = .error (loadCredentialsWrapMsg incompleteMsg) ∧
    msgContains (loadCredentialsWrapMsg incompleteMsg) "Client ID" ∧
    msgContains (loadCredentialsWrapMsg incompleteMsg) "Client Secret" := by
  refine ⟨?_, by decide, by decide⟩
  unfold loadCredentials
  rcases h with h | h <;> simp [h]

theorem C9_incomplete_fixed_message_witness :
    loadCredentials (.ok ⟨"", "sec2", ["u2"]⟩) =
      .error (loadCredentialsWrapMsg incompleteMsg) :=
  (C9_incomplete_fixed_message ⟨"", "sec2", ["u2"]⟩ (Or.inl rfl)).1

/-! ## Claims about the Resolver -/

/-- C1 counterexample: in a configuration where the file source (first
in the spec's priority order) succeeds and the other sources fail, the
spec's three-source chain returns the file record, but both revisions of
`loadCredentialsWithFallback` fail — the code attempts a single source
and never consults the file reader. -/
theorem C1_counterexample :
    loadCredentialsFromFile (.ok ⟨some ⟨"fid", "fsec", ["fu"]⟩, none, none, none⟩) =
      .ok ⟨"fid", "fsec", ["fu"]⟩ ∧
    specChainResolve (.ok ⟨some ⟨"fid", "fsec", ["fu"]⟩, none, none, none⟩)
        ⟨none, none, none, none⟩ (.error "connect ETIMEDOUT") =
      .ok ⟨"fid", "fsec", ["fu"]⟩ ∧
    loadCredentialsWithFallbackEnv ⟨none, none, none, none⟩ = .error envNotFoundMsg ∧
    loadCredentialsWithFallbackDoppler ⟨none, none, none, none⟩
        (.error "connect ETIMEDOUT") =
      .error (dopplerWrapMsg dopplerTokenMissingMsg) :=
  ⟨rfl, rfl, rfl, rfl⟩

/-- C1 (amended): each revision of the resolver attempts exactly one
source — the environment variables in revision A, the Doppler service in
revision B — and fails when that source fails, even in every
configuration where the file source succeeds (in which the spec's chain
would return the file record). -/
theorem C1_single_source_resolution (fileRead : Except String KeyFile) (env : Env)
    (l : Except String (Option DopplerSecrets)) (c : OAuthCredentials)
    (hfile : loadCredentialsFromFile fileRead = .ok c)
    (henv : (truthyStr env.GOOGLE_CLIENT_ID && truthyStr env.GOOGLE_CLIENT_SECRET
        && truthyStr env.GOOGLE_REDIRECT_URI) = false)
    (htok : env.DOPPLER_TOKEN = none) :
    specChainResolve fileRead env l = .ok c ∧
    loadCredentialsWithFallbackEnv env = .error envNotFoundMsg ∧
    loadCredentialsWithFallbackDoppler env l =
      .error (dopplerWrapMsg dopplerTokenMissingMsg) := by
  refine ⟨?_, ?_, ?_⟩
  · simp [specChainResolve, hfile]
  · simp [loadCredentialsWithFallbackEnv, henv]
  · simp [loadCredentialsWithFallbackDoppler, dopplerTryBody, htok, truthyStr]

theorem C1_single_source_resolution_witness :
    specChainResolve (.ok ⟨some ⟨"fid2", "fsec2", ["fu2"]⟩, none, none, none⟩)
        ⟨none, none, none, none⟩ (.ok none) = .ok ⟨"fid2", "fsec2", ["fu2"]⟩ :=
  (C1_single_source_resolution (.ok ⟨some ⟨"fid2", "fsec2", ["fu2"]⟩, none, none, none⟩)
    ⟨none, none, none, none⟩ (.ok none) ⟨"fid2", "fsec2", ["fu2"]⟩
    rfl (by decide) rfl).1

/-- C2 counterexample: with every source failing — the file read fails
with an I/O reason, the environment variables are unset, the Doppler
call raises a transport error — neither revision's final failure message
contains the file source's reason, so the aggregated message does not
contain each attempted source's individual reason. -/
theorem C2_counterexample :
    loadCredentialsFromFile (.error "ENOENT: no such file or directory") =
      .error "ENOENT: no such file or directory" ∧
    loadCredentialsWithFallbackEnv ⟨none, none, none, none⟩ = .error envNotFoundMsg ∧
    ¬ msgContains envNotFoundMsg "ENOENT" ∧
    loadCredentialsWithFallbackDoppler ⟨none, none, none, some "tok"⟩
        (.error "connect ETIMEDOUT") =
      .error (dopplerWrapMsg "connect ETIMEDOUT") ∧
    ¬ msgContains (dopplerWrapMsg "connect ETIMEDOUT") "ENOENT" :=
  ⟨rfl, rfl, by decide, rfl, by decide⟩

/-- C2 (amended): a total resolution failure reports only the single
attempted source: revision A fails with one fixed message (naming the
three environment variables), and revision B fails with a wrapper
message containing the Doppler attempt's own underlying reason. -/
theorem C2_single_source_failure (env : Env) (e m : String)
    (htok : truthyStr env.DOPPLER_TOKEN = true) :
    (loadCredentialsWithFallbackEnv env = .error m → m = envNotFoundMsg) ∧
    (loadCredentialsWithFallbackDoppler env (.error e) = .error (dopplerWrapMsg e) ∧
      msgContains (dopplerWrapMsg e) e) := by
  refine ⟨?_, ?_, msgContains_append_right _ e⟩
  · intro h
    unfold loadCredentialsWithFallbackEnv at h
    by_cases hc : (truthyStr env.GOOGLE_CLIENT_ID && truthyStr env.GOOGLE_CLIENT_SECRET
        && truthyStr env.GOOGLE_REDIRECT_URI) = true
    · rw [if_pos hc] at h
      exact Except.noConfusion h
    · rw [if_neg hc] at h
      injection h with h2
      exact h2.symm
  · simp [loadCredentialsWithFallbackDoppler, dopplerTryBody, htok]

theorem C2_single_source_failure_witness :
    loadCredentialsWithFallbackDoppler ⟨none, none, none, some "tok2"⟩
        (.error "socket hang up") = .error (dopplerWrapMsg "socket hang up") ∧
    msgContains (dopplerWrapMsg "socket hang up") "socket hang up" :=
  (C2_single_source_failure ⟨none, none, none, some "tok2"⟩ "socket hang up"
    envNotFoundMsg (by decide)).2
